import Mathlib

/-!
# Shallow embedding of win32-displayconfig (src/index.js)

This file embeds the pure logic of the library's core: the config
extractor (`extractDisplayConfig`), the restoration codec
(`displayConfigForRestoration`), the reconciliation engine
(`restoreDisplayConfig`), the toggle executor (`toggleEnabledDisplays`)
and the change-notification update step
(`updateDisplayStateAndNotifyCallbacks`).

Effects are embedded by explicit parameter passing: each function that
in the source awaits the native query (`extractDisplayConfig()`)
receives the already-extracted live configuration as an argument, and
each function that ends in a native apply/toggle call returns the
arguments it would pass to that call, as a value.  JavaScript numbers
appearing as ids/flags are modelled as `Nat`; raw `Buffer`s are byte
lists (`List Nat`); JavaScript `undefined`-able fields are `Option`s;
truthiness of the numeric `outputTechnology` field is `≠ 0`.
-/

/-- An adapter LUID, split into parts exactly as the native layer reports it. -/
structure AdapterId where
  LowPart : Nat
  HighPart : Nat
deriving DecidableEq, Repr

/-- `{adapterId, id}` pair identifying a source or target endpoint. -/
structure ConfigId where
  adapterId : AdapterId
  id : Nat
deriving DecidableEq, Repr

/-- `sourceInfo` of a path record (src/index.js lines 33-37). -/
structure SourceInfo where
  adapterId : AdapterId
  id : Nat
  modeInfoIdx : Nat
deriving DecidableEq, Repr

/-- `targetInfo` of a path record (src/index.js lines 38-45). -/
structure TargetInfo where
  adapterId : AdapterId
  id : Nat
  outputTechnology : Nat
  rotation : Nat
  scaling : Nat
  modeInfoIdx : Nat
deriving DecidableEq, Repr

/-- The decoded `value` of a path record. Bit 0 of `flags` is the active bit. -/
structure PathValue where
  flags : Nat
  sourceInfo : SourceInfo
  targetInfo : TargetInfo
deriving DecidableEq, Repr

/-- A path record with its raw buffer, one element of `config.pathArray`. -/
structure PathRecord where
  value : PathValue
  buffer : List Nat
deriving DecidableEq, Repr

/-- The decoded `value` of a mode record: a tagged union over
`infoType ∈ {source, target}`, the payloads opaque. -/
inductive ModeValue where
  | source (sourceMode : Nat)
  | target (targetVideoSignalInfo : Nat)
deriving DecidableEq, Repr

/-- A mode record with its raw buffer, one element of `config.modeArray`. -/
structure ModeRecord where
  value : ModeValue
  buffer : List Nat
deriving DecidableEq, Repr

/-- One element of `config.nameArray`. -/
structure NameRecord where
  adapterId : AdapterId
  id : Nat
  outputTechnology : Nat
  monitorFriendlyDeviceName : String
  monitorDevicePath : String
deriving DecidableEq, Repr

/-- The raw result of `queryDisplayConfig()`: three parallel arrays. -/
structure DisplayConfig where
  pathArray : List PathRecord
  modeArray : List ModeRecord
  nameArray : List NameRecord
deriving DecidableEq, Repr

/-- A logical display entry, the element type of `extractDisplayConfig`'s
result (src/index.js lines 87-108).  `targetVideoSignalInfo` and
`targetModeBuffer` are attached only when a target-tagged mode resolved. -/
structure LogicalDisplayEntry where
  displayName : String
  devicePath : String
  sourceConfigId : ConfigId
  targetConfigId : ConfigId
  inUse : Bool
  outputTechnology : Nat
  rotation : Nat
  scaling : Nat
  sourceMode : Nat
  pathBuffer : List Nat
  sourceModeBuffer : List Nat
  targetVideoSignalInfo : Option Nat
  targetModeBuffer : Option (List Nat)
deriving DecidableEq, Repr

/-- The name-matching predicate of `config.nameArray.find` in
src/index.js lines 56-64: equal adapter parts and id, both
`outputTechnology` values truthy (never compared to each other),
non-empty `monitorDevicePath`. -/
def nameMatches (targetInfo : TargetInfo) (n : NameRecord) : Bool :=
  n.adapterId.LowPart == targetInfo.adapterId.LowPart &&
  n.adapterId.HighPart == targetInfo.adapterId.HighPart &&
  n.id == targetInfo.id &&
  n.outputTechnology != 0 &&
  targetInfo.outputTechnology != 0 &&
  n.monitorDevicePath.length > 0

/-- The per-path-record body of the `for` loop of `extractDisplayConfig`
(src/index.js lines 29-111): `none` models `continue` (the path record
contributes no entry). An out-of-range `modeInfoIdx` surfaces as a `none`
lookup, exactly as the JavaScript index read surfaces `undefined`. -/
def extractEntry (config : DisplayConfig) (p : PathRecord) : Option LogicalDisplayEntry :=
  let value := p.value
  let inUse0 : Bool := value.flags % 2 == 1
  let sourceInfo := value.sourceInfo
  let targetInfo := value.targetInfo
  let sourceConfigId : ConfigId := ⟨sourceInfo.adapterId, sourceInfo.id⟩
  let targetConfigId : ConfigId := ⟨targetInfo.adapterId, targetInfo.id⟩
  match config.nameArray.find? (nameMatches targetInfo) with
  | none => none
  | some displayNameEntry =>
    match config.modeArray[sourceInfo.modeInfoIdx]? with
    | none => none
    | some sourceModeRec =>
      let targetModeRec := config.modeArray[targetInfo.modeInfoIdx]?
      let inUse : Bool := if targetModeRec.isNone then false else inUse0
      match sourceModeRec.value with
      | ModeValue.target _ => none
      | ModeValue.source sourceModePayload =>
        some {
          displayName := displayNameEntry.monitorFriendlyDeviceName
          devicePath := displayNameEntry.monitorDevicePath
          sourceConfigId := sourceConfigId
          targetConfigId := targetConfigId
          inUse := inUse
          outputTechnology := targetInfo.outputTechnology
          rotation := targetInfo.rotation
          scaling := targetInfo.scaling
          sourceMode := sourceModePayload
          pathBuffer := p.buffer
          sourceModeBuffer := sourceModeRec.buffer
          targetVideoSignalInfo :=
            match targetModeRec with
            | some tm =>
              match tm.value with
              | ModeValue.target tvsi => some tvsi
              | ModeValue.source _ => none
            | none => none
          targetModeBuffer :=
            match targetModeRec with
            | some tm =>
              match tm.value with
              | ModeValue.target _ => some tm.buffer
              | ModeValue.source _ => none
            | none => none
        }

/-- `extractDisplayConfig` (src/index.js lines 26-113) as a pure function
of the queried raw config: the ordered sequence of logical display
entries, one per path record that survives the join. -/
def extractDisplayConfig (config : DisplayConfig) : List LogicalDisplayEntry :=
  config.pathArray.filterMap (extractEntry config)

/-! ## Base64, modelling Node `Buffer.toString("base64")` / `Buffer.from(s, "base64")` -/

/-- The standard base64 alphabet used by Node buffers. -/
def base64Alphabet : List Char :=
  "ABCDEFGHIJKLMNOPQRSTUVWXYZabcdefghijklmnopqrstuvwxyz0123456789+/".toList

/-- The alphabet character for a 6-bit value. -/
def base64Char (n : Nat) : Char := base64Alphabet.getD n '='

/-- The 6-bit value of an alphabet character (64 for anything else). -/
def base64CharValue (c : Char) : Nat := base64Alphabet.indexOf c

/-- Encode a byte list in groups of three, emitting four characters each,
padding the final partial group with `=`. -/
def base64EncodeGroups : List Nat → List Char
  | [] => []
  | [b0] =>
    let n := b0 * 65536
    [base64Char (n / 262144 % 64), base64Char (n / 4096 % 64), '=', '=']
  | [b0, b1] =>
    let n := b0 * 65536 + b1 * 256
    [base64Char (n / 262144 % 64), base64Char (n / 4096 % 64), base64Char (n / 64 % 64), '=']
  | b0 :: b1 :: b2 :: rest =>
    let n := b0 * 65536 + b1 * 256 + b2
    base64Char (n / 262144 % 64) :: base64Char (n / 4096 % 64) ::
      base64Char (n / 64 % 64) :: base64Char (n % 64) :: base64EncodeGroups rest

/-- `buffer.toString("base64")`. -/
def bufferToBase64 (buffer : List Nat) : String := String.mk (base64EncodeGroups buffer)

/-- Decode four base64 characters at a time, honouring `=` padding. -/
def base64DecodeGroups : List Char → List Nat
  | c0 :: c1 :: c2 :: c3 :: rest =>
    if c2 == '=' then
      let n := base64CharValue c0 * 262144 + base64CharValue c1 * 4096
      [n / 65536 % 256]
    else if c3 == '=' then
      let n := base64CharValue c0 * 262144 + base64CharValue c1 * 4096 +
        base64CharValue c2 * 64
      [n / 65536 % 256, n / 256 % 256]
    else
      let n := base64CharValue c0 * 262144 + base64CharValue c1 * 4096 +
        base64CharValue c2 * 64 + base64CharValue c3
      n / 65536 % 256 :: n / 256 % 256 :: n % 256 :: base64DecodeGroups rest
  | _ => []

/-- `Buffer.from(s, "base64")`. -/
def base64ToBuffer (s : String) : List Nat := base64DecodeGroups s.toList

/-! ## Restoration codec -/

/-- One element of the persisted snapshot produced by
`displayConfigForRestoration` (src/index.js lines 186-191): the three
buffers base64-encoded. -/
structure RestorationRecord where
  devicePath : String
  pathBuffer : String
  sourceModeBuffer : String
  targetModeBuffer : String
deriving DecidableEq, Repr

/-- The per-entry body of the loop of `displayConfigForRestoration`
(src/index.js lines 176-192): `none` models `continue`. -/
def restorationRecordFor (entry : LogicalDisplayEntry) : Option RestorationRecord :=
  if !entry.inUse then none
  else
    match entry.targetModeBuffer with
    | none => none
    | some tmb =>
      some {
        devicePath := entry.devicePath
        pathBuffer := bufferToBase64 entry.pathBuffer
        sourceModeBuffer := bufferToBase64 entry.sourceModeBuffer
        targetModeBuffer := bufferToBase64 tmb
      }

/-- `displayConfigForRestoration` (src/index.js lines 172-195) as a pure
function of the live extracted entries. -/
def displayConfigForRestoration (currentConfig : List LogicalDisplayEntry) :
    List RestorationRecord :=
  currentConfig.filterMap restorationRecordFor

/-! ## Reconciliation engine -/

/-- `devicePathLookupForEnabledDisplayConfig` (src/index.js lines
158-170) observed at a key: the JavaScript builds an object keyed by
`devicePath`, skipping entries with `inUse && targetModeBuffer ===
undefined` and skipping keys already present (first occurrence wins), so
`ret[path]` is the first non-skipped entry whose `devicePath` is
`path`. -/
def devicePathLookupForEnabledDisplayConfig
    (conf : List LogicalDisplayEntry) (path : String) : Option LogicalDisplayEntry :=
  match conf with
  | [] => none
  | entry :: rest =>
    if entry.inUse && entry.targetModeBuffer.isNone then
      devicePathLookupForEnabledDisplayConfig rest path
    else if entry.devicePath == path then
      some entry
    else
      devicePathLookupForEnabledDisplayConfig rest path

/-- One item of `args.config` given to `restoreDisplayConfig`: either a
full restoration record (`targetModeBuffer` present, "desired enabled")
or a device-path-only record (`targetModeBuffer` absent, "desired
disabled"; its other buffer fields are never read by the source). -/
structure RestorationRequestItem where
  devicePath : String
  pathBuffer : String
  sourceModeBuffer : String
  targetModeBuffer : Option String
deriving DecidableEq, Repr

/-- One record of the `coercedState` array handed to the raw
`win32_restoreDisplayConfig` primitive (src/index.js lines 253-259). -/
structure ApplyRecord where
  sourceConfigId : ConfigId
  targetConfigId : ConfigId
  pathBuffer : List Nat
  sourceModeBuffer : List Nat
  targetModeBuffer : List Nat
deriving DecidableEq, Repr

/-- The externally visible effect of `restoreDisplayConfig`: exactly one
call, either to the raw apply primitive (`win32_restoreDisplayConfig`)
or to the toggle path (`toggleEnabledDisplays`). -/
inductive RestoreAction where
  | apply (coercedState : List ApplyRecord) (persistent : Bool)
  | toggle (enable : List String) (disable : List String) (persistent : Bool)
deriving DecidableEq, Repr

/-- JavaScript `new Set(l)` iteration order: members of `l` in first
occurrence order, each once.  `acc` is the set built so far. -/
def setDedup (acc : List String) : List String → List String
  | [] => acc
  | p :: rest =>
    if acc.contains p then setDedup acc rest else setDedup (acc ++ [p]) rest

/-- `setSubtract` (src/index.js lines 148-156): the members of `left`
not in `right` (the caller passes `left` already deduplicated, so the
`Set` the source accumulates into adds nothing further). -/
def setSubtract (left right : List String) : List String :=
  left.filter (fun entry => !right.contains entry)

/-- One pass of the fallback loops of `restoreDisplayConfig`
(src/index.js lines 272-283): walk `paths`, and for each path not yet
`seen` and present in `givenAsSet`, append it to the output and mark it
seen.  Returns the final `seen` set and the accumulated list. -/
def togglePass (givenAsSet seen : List String) :
    List String → List String × List String
  | [] => (seen, [])
  | p :: rest =>
    if !seen.contains p && givenAsSet.contains p then
      let next := togglePass givenAsSet (seen ++ [p]) rest
      (next.1, p :: next.2)
    else
      togglePass givenAsSet seen rest

/-- `restoreDisplayConfig` (src/index.js lines 216-291) as a pure
function of the request and of the live extracted configuration
(`currentConfig`, the awaited result of `extractDisplayConfig()`),
returning the single native call it performs. -/
def restoreDisplayConfig (config : List RestorationRequestItem) (persistent : Bool)
    (currentConfig : List LogicalDisplayEntry) : RestoreAction :=
  let devicePathNames :=
    (config.filter (fun item => item.targetModeBuffer.isSome)).map
      (fun item => item.devicePath)
  let givenAsSet := setDedup [] (currentConfig.map (fun e => e.devicePath))
  let expectedEnabledAsSet := setDedup [] devicePathNames
  let missingEnabled := setSubtract expectedEnabledAsSet givenAsSet
  if missingEnabled.isEmpty then
    let coercedState := config.filterMap (fun entry =>
      match entry.targetModeBuffer with
      | none => none
      | some tmb =>
        match devicePathLookupForEnabledDisplayConfig currentConfig entry.devicePath with
        | none => none
        | some currentConfigEntry =>
          some {
            sourceConfigId := currentConfigEntry.sourceConfigId
            targetConfigId := currentConfigEntry.targetConfigId
            pathBuffer := base64ToBuffer entry.pathBuffer
            sourceModeBuffer := base64ToBuffer entry.sourceModeBuffer
            targetModeBuffer := base64ToBuffer tmb
          })
    RestoreAction.apply coercedState persistent
  else
    let notInUse :=
      (config.filter (fun item => item.targetModeBuffer.isNone)).map
        (fun item => item.devicePath)
    let enablePass := togglePass givenAsSet [] devicePathNames
    let disablePass := togglePass givenAsSet enablePass.1 notInUse
    RestoreAction.toggle enablePass.2 disablePass.2 persistent

/-! ## Toggle executor -/

/-- `Array.isArray(paths) && paths.indexOf(devicePath) >= 0`
(src/index.js lines 137 and 140): a non-array argument never matches. -/
def pathListMatches (paths : Option (List String)) (devicePath : String) : Bool :=
  match paths with
  | none => false
  | some l => l.contains devicePath

/-- `toggleEnabledDisplays` (src/index.js lines 130-146) as a pure
function of the request lists and of the freshly re-extracted live
configuration, returning the `(enable, disable)` `targetConfigId` lists
it passes to the raw `win32_toggleEnabledDisplays` primitive. -/
def toggleEnabledDisplays (enablePaths disablePaths : Option (List String)) :
    List LogicalDisplayEntry → List ConfigId × List ConfigId
  | [] => ([], [])
  | entry :: rest =>
    let next := toggleEnabledDisplays enablePaths disablePaths rest
    ((if pathListMatches enablePaths entry.devicePath then
        entry.targetConfigId :: next.1 else next.1),
     (if pathListMatches disablePaths entry.devicePath then
        entry.targetConfigId :: next.2 else next.2))

/-! ## Change notification cache -/

/-- The process-wide state the update step touches: the cached config
(`currentDisplayConfig`, initially absent) and the subscriber set,
callbacks identified by opaque ids. -/
structure NotifyState where
  currentDisplayConfig : Option (List LogicalDisplayEntry)
  displayChangeCallbacks : List Nat
deriving DecidableEq, Repr

/-- The argument a change callback is invoked with: `(null, config)` on
success, `(error)` on failure. -/
inductive CallbackArg where
  | ok (config : List LogicalDisplayEntry)
  | err (code : Nat)
deriving DecidableEq, Repr

/-- `updateDisplayStateAndNotifyCallbacks` (src/index.js lines 296-307)
as a pure step: given the awaited outcome of `extractDisplayConfig()`
(`Except.error` models the extraction throwing), produce the new state
and the list of callback invocations, in subscriber order. -/
def updateDisplayStateAndNotifyCallbacks (st : NotifyState)
    (extractionResult : Except Nat (List LogicalDisplayEntry)) :
    NotifyState × List (Nat × CallbackArg) :=
  match extractionResult with
  | Except.ok newConfig =>
    ({ st with currentDisplayConfig := some newConfig },
     st.displayChangeCallbacks.map (fun cb => (cb, CallbackArg.ok newConfig)))
  | Except.error e =>
    (st, st.displayChangeCallbacks.map (fun cb => (cb, CallbackArg.err e)))

/-! ## Sample data for closed instances -/

/-- A sample adapter id. -/
def adapterSample : AdapterId := ⟨1, 2⟩

/-- A sample target info: `outputTechnology` 5, `modeInfoIdx` 1. -/
def targetInfoSample : TargetInfo := ⟨adapterSample, 7, 5, 0, 0, 1⟩

/-- A sample source info: `modeInfoIdx` 0. -/
def sourceInfoSample : SourceInfo := ⟨adapterSample, 3, 0⟩

/-- A sample active path record. -/
def pathRecordSample : PathRecord := ⟨⟨1, sourceInfoSample, targetInfoSample⟩, [1, 2, 3]⟩

/-- A sample name record matching `targetInfoSample` on `(adapterId, id)`,
with a different (but truthy) `outputTechnology`. -/
def nameRecordSample : NameRecord := ⟨adapterSample, 7, 9, "Dell U2720Q", "pathA"⟩

/-- A sample source-tagged mode record. -/
def sourceModeRecordSample : ModeRecord := ⟨ModeValue.source 42, [4, 5]⟩

/-- A sample target-tagged mode record. -/
def targetModeRecordSample : ModeRecord := ⟨ModeValue.target 43, [6, 7]⟩

/-- A live entry that is not `inUse` and has no target mode buffer: the
"connected but powered off" shape the extractor produces. -/
def offEntrySample : LogicalDisplayEntry :=
  { displayName := "Dell U2720Q"
    devicePath := "pathA"
    sourceConfigId := ⟨⟨1, 2⟩, 3⟩
    targetConfigId := ⟨⟨1, 2⟩, 7⟩
    inUse := false
    outputTechnology := 5
    rotation := 0
    scaling := 0
    sourceMode := 42
    pathBuffer := [1, 2]
    sourceModeBuffer := [3, 4]
    targetVideoSignalInfo := none
    targetModeBuffer := none }

/-- A live entry that is `inUse` with a target mode buffer. -/
def onEntrySample : LogicalDisplayEntry :=
  { offEntrySample with
    inUse := true
    targetVideoSignalInfo := some 43
    targetModeBuffer := some [9] }

/-- A desired-enabled restoration request item for `pathA`, carrying the
base64 encodings of the buffers `[1]`, `[2]` and `[9]`. -/
def requestItemEnabledSample : RestorationRequestItem :=
  { devicePath := "pathA"
    pathBuffer := "AQ=="
    sourceModeBuffer := "Ag=="
    targetModeBuffer := some "CQ==" }

/-- A desired-disabled restoration request item for `pathA`. -/
def requestItemDisabledSample : RestorationRequestItem :=
  { devicePath := "pathA"
    pathBuffer := ""
    sourceModeBuffer := ""
    targetModeBuffer := none }

/-- A desired-enabled request item whose device path is not live. -/
def requestItemMissingSample : RestorationRequestItem :=
  { requestItemEnabledSample with devicePath := "pathMissing" }
/-! ## Helper lemmas -/

/-- Bridge between Bool `List.contains` on strings and membership. -/
theorem contains_iff (l : List String) (p : String) : l.contains p = true ↔ p ∈ l := by
  simp [List.contains]

/-- `nameMatches` unfolded to a proposition. -/
theorem nameMatches_eq_true_iff (t : TargetInfo) (n : NameRecord) :
    nameMatches t n = true ↔
      (n.adapterId.LowPart = t.adapterId.LowPart ∧
       n.adapterId.HighPart = t.adapterId.HighPart ∧
       n.id = t.id ∧
       n.outputTechnology ≠ 0 ∧
       t.outputTechnology ≠ 0 ∧
       0 < n.monitorDevicePath.length) := by
  simp [nameMatches, and_assoc]

/-- C4: a path record whose target matches no name record under the join
condition contributes no entry to the extractor's output. -/
theorem extract_drops_unmatched_path
    (p : PathRecord) (paths : List PathRecord) (modes : List ModeRecord)
    (names : List NameRecord)
    (h : ∀ n ∈ names,
      ¬(n.adapterId.LowPart = p.value.targetInfo.adapterId.LowPart ∧
        n.adapterId.HighPart = p.value.targetInfo.adapterId.HighPart ∧
        n.id = p.value.targetInfo.id ∧
        n.outputTechnology ≠ 0 ∧
        p.value.targetInfo.outputTechnology ≠ 0 ∧
        0 < n.monitorDevicePath.length)) :
    extractEntry ⟨paths, modes, names⟩ p = none ∧
    extractDisplayConfig ⟨p :: paths, modes, names⟩ =
      extractDisplayConfig ⟨paths, modes, names⟩ := by
  have hfind : names.find? (nameMatches p.value.targetInfo) = none := by
    rw [List.find?_eq_none]
    intro n hn
    rw [nameMatches_eq_true_iff]
    exact h n hn
  have h1 : extractEntry ⟨paths, modes, names⟩ p = none := by
    simp [extractEntry, hfind]
  refine ⟨h1, ?_⟩
  have h2 : extractEntry ⟨p :: paths, modes, names⟩ = extractEntry ⟨paths, modes, names⟩ := rfl
  simp [extractDisplayConfig, h2, h1]

/-- C5: a path record whose source mode lookup misses (out-of-range or
missing index) or resolves to a target-tagged mode contributes no entry. -/
theorem extract_drops_bad_source_mode
    (p : PathRecord) (paths : List PathRecord) (modes : List ModeRecord)
    (names : List NameRecord)
    (h : modes[p.value.sourceInfo.modeInfoIdx]? = none ∨
         ∃ tvsi buf, modes[p.value.sourceInfo.modeInfoIdx]? =
           some ⟨ModeValue.target tvsi, buf⟩) :
    extractEntry ⟨paths, modes, names⟩ p = none ∧
    extractDisplayConfig ⟨p :: paths, modes, names⟩ =
      extractDisplayConfig ⟨paths, modes, names⟩ := by
  have h1 : extractEntry ⟨paths, modes, names⟩ p = none := by
    rcases h with h | ⟨tvsi, buf, h⟩ <;>
    · simp only [extractEntry, h]
      cases names.find? (nameMatches p.value.targetInfo) <;> simp
  refine ⟨h1, ?_⟩
  have h2 : extractEntry ⟨p :: paths, modes, names⟩ = extractEntry ⟨paths, modes, names⟩ := rfl
  simp [extractDisplayConfig, h2, h1]

/-- C6: a path record with resolvable name and source-tagged source mode
but a missing target mode lookup produces an entry, with `inUse = false` and
no target-derived fields. -/
theorem extract_keeps_powered_off_path
    (p : PathRecord) (paths : List PathRecord) (modes : List ModeRecord)
    (names : List NameRecord)
    (hname : (names.find? (nameMatches p.value.targetInfo)).isSome = true)
    (hsrc : ∃ sm buf, modes[p.value.sourceInfo.modeInfoIdx]? =
      some ⟨ModeValue.source sm, buf⟩)
    (htgt : modes[p.value.targetInfo.modeInfoIdx]? = none) :
    ∃ e, extractEntry ⟨paths, modes, names⟩ p = some e ∧
      e.inUse = false ∧ e.targetModeBuffer = none ∧ e.targetVideoSignalInfo = none := by
  obtain ⟨nrec, hn⟩ := Option.isSome_iff_exists.mp hname
  obtain ⟨sm, buf, hs⟩ := hsrc
  simp only [extractEntry, hn, hs, htgt]
  exact ⟨_, rfl, rfl, rfl, rfl⟩

/-- C9: the name-matching condition requires both `outputTechnology`
fields truthy but never equal: with unequal truthy values the name still
matches and an entry is produced, while a falsy path-target
`outputTechnology` matches no name record at all and the path is dropped. -/
theorem name_match_ignores_tech_value
    (t : TargetInfo) (n : NameRecord) (paths : List PathRecord)
    (modes : List ModeRecord) (p : PathRecord) (sm : Nat) (buf : List Nat)
    (hlow : n.adapterId.LowPart = t.adapterId.LowPart)
    (hhigh : n.adapterId.HighPart = t.adapterId.HighPart)
    (hid : n.id = t.id)
    (hpath : 0 < n.monitorDevicePath.length)
    (hnt : n.outputTechnology ≠ 0)
    (htt : t.outputTechnology ≠ 0)
    (hne : n.outputTechnology ≠ t.outputTechnology)
    (ht : p.value.targetInfo = t)
    (hs : modes[p.value.sourceInfo.modeInfoIdx]? = some ⟨ModeValue.source sm, buf⟩) :
    nameMatches t n = true ∧
    (∃ e, extractEntry ⟨paths, modes, [n]⟩ p = some e) ∧
    (∀ (t2 : TargetInfo) (n2 : NameRecord), t2.outputTechnology = 0 →
      nameMatches t2 n2 = false) ∧
    (∀ (paths2 : List PathRecord) (modes2 : List ModeRecord)
       (names2 : List NameRecord) (p2 : PathRecord),
      p2.value.targetInfo.outputTechnology = 0 →
      extractEntry ⟨paths2, modes2, names2⟩ p2 = none) := by
  have hmatch : nameMatches t n = true :=
    (nameMatches_eq_true_iff t n).mpr ⟨hlow, hhigh, hid, hnt, htt, hpath⟩
  have hfalsy : ∀ (t2 : TargetInfo) (n2 : NameRecord), t2.outputTechnology = 0 →
      nameMatches t2 n2 = false := by
    intro t2 n2 h0
    simp [nameMatches, h0]
  refine ⟨hmatch, ?_, hfalsy, ?_⟩
  · have hfind : (([n] : List NameRecord).find? (nameMatches p.value.targetInfo)) = some n := by
      rw [ht]
      simp [List.find?, hmatch]
    simp only [extractEntry, hfind, hs]
    exact ⟨_, rfl⟩
  · intro paths2 modes2 names2 p2 h0
    have hfind : names2.find? (nameMatches p2.value.targetInfo) = none := by
      rw [List.find?_eq_none]
      intro n2 _
      simp [hfalsy _ n2 h0]
    simp [extractEntry, hfind]

/-- C7: the restoration snapshot is exactly one record per live entry
with `inUse` and a present `targetModeBuffer`, in input order, with the
three buffers base64-encoded; all other entries are absent. -/
theorem displayConfigForRestoration_characterization (conf : List LogicalDisplayEntry) :
    displayConfigForRestoration conf =
      (conf.filter (fun e => e.inUse && e.targetModeBuffer.isSome)).map
        (fun e =>
          { devicePath := e.devicePath
            pathBuffer := bufferToBase64 e.pathBuffer
            sourceModeBuffer := bufferToBase64 e.sourceModeBuffer
            targetModeBuffer := bufferToBase64 (e.targetModeBuffer.getD []) }) := by
  induction conf with
  | nil => rfl
  | cons e rest ih =>
    simp only [displayConfigForRestoration] at ih ⊢
    cases hU : e.inUse <;> cases hT : e.targetModeBuffer <;>
      simp [restorationRecordFor, List.filterMap_cons, hU, hT, ih]

/-- C8: a failed update invokes every subscriber with the error and
leaves the cached config untouched; a successful update replaces the cache
and invokes every subscriber with the new config. -/
theorem update_notifies_and_preserves_cache (st : NotifyState)
    (code : Nat) (newConfig : List LogicalDisplayEntry) :
    ((updateDisplayStateAndNotifyCallbacks st (Except.error code)).1.currentDisplayConfig
        = st.currentDisplayConfig ∧
     (updateDisplayStateAndNotifyCallbacks st (Except.error code)).2
        = st.displayChangeCallbacks.map (fun cb => (cb, CallbackArg.err code))) ∧
    ((updateDisplayStateAndNotifyCallbacks st (Except.ok newConfig)).1.currentDisplayConfig
        = some newConfig ∧
     (updateDisplayStateAndNotifyCallbacks st (Except.ok newConfig)).2
        = st.displayChangeCallbacks.map (fun cb => (cb, CallbackArg.ok newConfig))) :=
  ⟨⟨rfl, rfl⟩, ⟨rfl, rfl⟩⟩

/-- The id lists `toggleEnabledDisplays` hands to the raw toggle primitive
are the `targetConfigId`s of the live entries whose device path occurs in the
respective request list, in live-extraction order. -/
theorem toggleEnabledDisplays_eq (ep dp : Option (List String))
    (conf : List LogicalDisplayEntry) :
    toggleEnabledDisplays ep dp conf =
      ((conf.filter (fun e => pathListMatches ep e.devicePath)).map
          (fun e => e.targetConfigId),
       (conf.filter (fun e => pathListMatches dp e.devicePath)).map
          (fun e => e.targetConfigId)) := by
  induction conf with
  | nil => rfl
  | cons e rest ih =>
    simp only [toggleEnabledDisplays, ih]
    cases hE : pathListMatches ep e.devicePath <;>
      cases hD : pathListMatches dp e.devicePath <;>
      simp [List.filter_cons, hE, hD]

/-- C10: `toggleEnabledDisplays` applies no enable-wins exclusivity: a
device path occurring in both request lists and matching a live entry puts
that entry's `targetConfigId` on both id lists, and each id list is exactly
the matching live entries' ids in live-extraction order. -/
theorem toggle_direct_call_no_exclusivity
    (enablePaths disablePaths : List String) (conf : List LogicalDisplayEntry)
    (devicePath : String) (entry : LogicalDisplayEntry)
    (hE : devicePath ∈ enablePaths) (hD : devicePath ∈ disablePaths)
    (hentry : entry ∈ conf) (hdp : entry.devicePath = devicePath) :
    (toggleEnabledDisplays (some enablePaths) (some disablePaths) conf =
      ((conf.filter (fun e => (enablePaths : List String).contains e.devicePath)).map
          (fun e => e.targetConfigId),
       (conf.filter (fun e => (disablePaths : List String).contains e.devicePath)).map
          (fun e => e.targetConfigId))) ∧
    entry.targetConfigId ∈
      (toggleEnabledDisplays (some enablePaths) (some disablePaths) conf).1 ∧
    entry.targetConfigId ∈
      (toggleEnabledDisplays (some enablePaths) (some disablePaths) conf).2 := by
  have heq := toggleEnabledDisplays_eq (some enablePaths) (some disablePaths) conf
  have hpm : ∀ (l : List String), pathListMatches (some l) = fun s => l.contains s := by
    intro l; rfl
  rw [hpm, hpm] at heq
  refine ⟨heq, ?_, ?_⟩ <;> rw [heq] <;> simp only [List.mem_map]
  · refine ⟨entry, ?_, rfl⟩
    rw [List.mem_filter]
    exact ⟨hentry, by rw [hdp]; exact (contains_iff _ _).mpr hE⟩
  · refine ⟨entry, ?_, rfl⟩
    rw [List.mem_filter]
    exact ⟨hentry, by rw [hdp]; exact (contains_iff _ _).mpr hD⟩

/-- C1 counterexample: an entry with `inUse = false` (and no target
buffer) is present in the lookup, though the claim says every entry failing
the `inUse && targetModeBuffer` filter is absent. -/
theorem lookup_keeps_not_inUse_entry :
    offEntrySample.inUse = false ∧ offEntrySample.targetModeBuffer = none ∧
    devicePathLookupForEnabledDisplayConfig [offEntrySample] offEntrySample.devicePath =
      some offEntrySample := by
  refine ⟨rfl, rfl, ?_⟩
  decide

/-- C1 amended: the lookup keeps the first live entry per device path
among those that are NOT (`inUse` with an absent `targetModeBuffer`); an
`inUse` entry without a target buffer is never returned, and a path all of
whose live entries are of that shape resolves to nothing. -/
theorem lookup_characterization (conf : List LogicalDisplayEntry) (path : String) :
    (devicePathLookupForEnabledDisplayConfig conf path =
      (conf.filter (fun e => !(e.inUse && e.targetModeBuffer.isNone))).find?
        (fun e => e.devicePath == path)) ∧
    (∀ e, e.inUse = true → e.targetModeBuffer = none →
      devicePathLookupForEnabledDisplayConfig conf path ≠ some e) ∧
    ((∀ e ∈ conf, e.devicePath = path → e.inUse = true ∧ e.targetModeBuffer = none) →
      devicePathLookupForEnabledDisplayConfig conf path = none) := by
  have hchar : devicePathLookupForEnabledDisplayConfig conf path =
      (conf.filter (fun e => !(e.inUse && e.targetModeBuffer.isNone))).find?
        (fun e => e.devicePath == path) := by
    induction conf with
    | nil => rfl
    | cons e rest ih =>
      simp only [devicePathLookupForEnabledDisplayConfig, List.filter_cons]
      by_cases hskip : (e.inUse && e.targetModeBuffer.isNone) = true
    
      · simp only [hskip, if_true, Bool.not_true, Bool.false_eq_true, if_false]
        exact ih
      · have hb : (e.inUse && e.targetModeBuffer.isNone) = false := by
          revert hskip
          cases e.inUse && e.targetModeBuffer.isNone <;> simp
        simp only [hb, Bool.false_eq_true, if_false, Bool.not_false, if_true, List.find?]
        cases hP : e.devicePath == path
        · simp [hP, ih]
        · simp [hP]
  refine ⟨hchar, ?_, ?_⟩
  · intro e hU hT hsome
    rw [hchar] at hsome
    have hmem := List.mem_of_find?_eq_some hsome
    rw [List.mem_filter] at hmem
    simp [hU, hT] at hmem
  · intro hall
    rw [hchar]
    cases hf : (conf.filter (fun e => !(e.inUse && e.targetModeBuffer.isNone))).find?
        (fun e => e.devicePath == path) with
    | none => rfl
    | some e =>
      exfalso
      have hmem := List.mem_of_find?_eq_some hf
      have hpred := List.find?_some hf
      rw [List.mem_filter] at hmem
      have hpath : e.devicePath = path := by simpa using hpred
      have := hall e hmem.1 hpath
      simp [this.1, this.2] at hmem

/-- Closed instance of the amended C1 statement: a path whose only live
entry is `inUse` without a target buffer resolves to nothing. -/
theorem lookup_characterization_witness :
    devicePathLookupForEnabledDisplayConfig
      [{ offEntrySample with inUse := true }] "pathA" = none :=
  (lookup_characterization [{ offEntrySample with inUse := true }]
    "pathA").2.2 (by decide)

/-- Membership in the JavaScript-`Set` iteration model. -/
theorem mem_setDedup (l : List String) (acc : List String) (p : String) :
    p ∈ setDedup acc l ↔ p ∈ acc ∨ p ∈ l := by
  induction l generalizing acc with
  | nil => simp [setDedup]
  | cons q rest ih =>
    by_cases hq : acc.contains q = true
    · rw [setDedup, if_pos hq, ih]
      have hqmem : q ∈ acc := (contains_iff acc q).mp hq
      constructor
      · rintro (h | h)
        · exact Or.inl h
        · exact Or.inr (List.mem_cons_of_mem _ h)
      · rintro (h | h)
        · exact Or.inl h
        · rcases List.mem_cons.mp h with rfl | h
          · exact Or.inl hqmem
          · exact Or.inr h
    · rw [setDedup, if_neg hq, ih]
      constructor
      · rintro (h | h)
        · rcases List.mem_append.mp h with h | h
          · exact Or.inl h
          · exact Or.inr (List.mem_cons.mpr (Or.inl (List.mem_singleton.mp h)))
        · exact Or.inr (List.mem_cons_of_mem _ h)
      · rintro (h | h)
        · exact Or.inl (List.mem_append.mpr (Or.inl h))
        · rcases List.mem_cons.mp h with rfl | h
          · exact Or.inl (List.mem_append.mpr (Or.inr (List.mem_singleton.mpr rfl)))
          · exact Or.inr h

/-- Bool `contains` negative bridge. -/
theorem contains_eq_false_iff (l : List String) (p : String) :
    l.contains p = false ↔ p ∉ l := by
  rw [← contains_iff]
  cases l.contains p <;> simp

/-- C2: when every desired-enabled device path is live, the restore is a
single raw apply call whose records pair the live config ids found in the
filtered lookup with the stored, base64-decoded buffers; the toggle path is
never taken. -/
theorem restore_applies_when_all_enabled_present
    (config : List RestorationRequestItem) (persistent : Bool)
    (currentConfig : List LogicalDisplayEntry)
    (h : ∀ item ∈ config, item.targetModeBuffer.isSome = true →
      item.devicePath ∈ currentConfig.map (fun e => e.devicePath)) :
    restoreDisplayConfig config persistent currentConfig =
      RestoreAction.apply
        (config.filterMap (fun entry =>
          match entry.targetModeBuffer with
          | none => none
          | some tmb =>
            match devicePathLookupForEnabledDisplayConfig currentConfig entry.devicePath with
            | none => none
            | some currentConfigEntry =>
              some {
                sourceConfigId := currentConfigEntry.sourceConfigId
                targetConfigId := currentConfigEntry.targetConfigId
                pathBuffer := base64ToBuffer entry.pathBuffer
                sourceModeBuffer := base64ToBuffer entry.sourceModeBuffer
                targetModeBuffer := base64ToBuffer tmb }))
        persistent := by
  have hempty : (setSubtract
      (setDedup [] ((config.filter (fun item => item.targetModeBuffer.isSome)).map
        (fun item => item.devicePath)))
      (setDedup [] (currentConfig.map (fun e => e.devicePath)))).isEmpty = true := by
    rw [List.isEmpty_iff, setSubtract, List.filter_eq_nil_iff]
    intro a ha
    have hmem : a ∈ (config.filter (fun item => item.targetModeBuffer.isSome)).map
        (fun item => item.devicePath) :=
      ((mem_setDedup _ [] a).mp ha).resolve_left (List.not_mem_nil a)
    obtain ⟨item, hitem, rfl⟩ := List.mem_map.mp hmem
    rw [List.mem_filter] at hitem
    have hin := h item hitem.1 hitem.2
    have hc : (setDedup [] (currentConfig.map (fun e => e.devicePath))).contains
        item.devicePath = true := by
      rw [contains_iff]
      exact (mem_setDedup _ [] _).mpr (Or.inr hin)
    intro hbad
    rw [hc] at hbad
    simp at hbad
  simp only [restoreDisplayConfig]
  rw [if_pos hempty]

/-- After a fallback pass, the `seen` set is the initial one extended by the
pass's output. -/
theorem togglePass_seen (given : List String) :
    ∀ (paths seen : List String),
      (togglePass given seen paths).1 = seen ++ (togglePass given seen paths).2 := by
  intro paths
  induction paths with
  | nil => intro seen; simp [togglePass]
  | cons q rest ih =>
    intro seen
    by_cases hc : (!seen.contains q && given.contains q) = true
    · simp only [togglePass, hc, if_true]
      show (togglePass given (seen ++ [q]) rest).1 =
        seen ++ q :: (togglePass given (seen ++ [q]) rest).2
      rw [ih (seen ++ [q])]
      simp
    · simp only [togglePass, hc, if_false]
      exact ih seen

/-- Everything a fallback pass outputs is in `given` and was not initially
seen. -/
theorem togglePass_out_mem (given : List String) :
    ∀ (paths seen : List String) (p : String), p ∈ (togglePass given seen paths).2 →
      given.contains p = true ∧ seen.contains p = false := by
  intro paths
  induction paths with
  | nil =>
    intro seen p hp
    simp [togglePass] at hp
  | cons q rest ih =>
    intro seen p hp
    by_cases hc : (!seen.contains q && given.contains q) = true
    · simp only [togglePass, hc, if_true] at hp
      have hc2 := hc
      simp only [Bool.and_eq_true] at hc2
      obtain ⟨h1, h2⟩ := hc2
      rcases List.mem_cons.mp hp with rfl | hp2
      · refine ⟨h2, ?_⟩
        revert h1
        cases seen.contains p <;> simp
      · have hrec := ih (seen ++ [q]) p hp2
        refine ⟨hrec.1, ?_⟩
        have h3 := hrec.2
        rw [contains_eq_false_iff] at h3 ⊢
        intro hmem
        exact h3 (List.mem_append.mpr (Or.inl hmem))
    · simp only [togglePass, hc, if_false] at hp
      exact ih seen p hp

/-- A path occurring in the pass input, not initially seen and present in
`given`, makes it into the pass output. -/
theorem togglePass_out_complete (given : List String) :
    ∀ (paths seen : List String) (p : String),
      p ∈ paths → seen.contains p = false → given.contains p = true →
      p ∈ (togglePass given seen paths).2 := by
  intro paths
  induction paths with
  | nil =>
    intro seen p hp _ _
    exact absurd hp (List.not_mem_nil p)
  | cons q rest ih =>
    intro seen p hp hseen hgiven
    by_cases hpq : p = q
    · subst hpq
      have hc : (!seen.contains p && given.contains p) = true := by
        rw [hseen, hgiven]
        rfl
      simp only [togglePass, hc, if_true]
      exact List.mem_cons_self _ _
    · have hp2 : p ∈ rest := by
        rcases List.mem_cons.mp hp with h | h
        · exact absurd h hpq
        · exact h
      by_cases hc : (!seen.contains q && given.contains q) = true
      · simp only [togglePass, hc, if_true]
        refine List.mem_cons_of_mem _ (ih (seen ++ [q]) p hp2 ?_ hgiven)
        rw [contains_eq_false_iff] at hseen ⊢
        intro hmem
        rcases List.mem_append.mp hmem with h | h
        · exact hseen h
        · exact hpq (List.mem_singleton.mp h)
      · simp only [togglePass, hc, if_false]
        exact ih seen p hp2 hseen hgiven

/-- C3: when some desired-enabled device path is not live, the restore is
a toggle call; both lists contain only live paths, are disjoint, and a path
requested both enabled and disabled lands in the enable list only. -/
theorem restore_falls_back_when_enabled_missing
    (config : List RestorationRequestItem) (persistent : Bool)
    (currentConfig : List LogicalDisplayEntry)
    (h : ∃ item ∈ config, item.targetModeBuffer.isSome = true ∧
      item.devicePath ∉ currentConfig.map (fun e => e.devicePath)) :
    ∃ enable disable,
      restoreDisplayConfig config persistent currentConfig =
        RestoreAction.toggle enable disable persistent ∧
      (∀ p ∈ enable, p ∈ currentConfig.map (fun e => e.devicePath)) ∧
      (∀ p ∈ disable, p ∈ currentConfig.map (fun e => e.devicePath)) ∧
      (∀ p ∈ enable, p ∉ disable) ∧
      (∀ p : String,
        (∃ i ∈ config, i.targetModeBuffer.isSome = true ∧ i.devicePath = p) →
        (∃ i ∈ config, i.targetModeBuffer = none ∧ i.devicePath = p) →
        p ∈ currentConfig.map (fun e => e.devicePath) →
        p ∈ enable ∧ p ∉ disable) := by
  obtain ⟨item, hitem, hsome, habs⟩ := h
  have hnottrue : ¬ ((setSubtract
      (setDedup [] ((config.filter (fun item => item.targetModeBuffer.isSome)).map
        (fun item => item.devicePath)))
      (setDedup [] (currentConfig.map (fun e => e.devicePath)))).isEmpty = true) := by
    rw [List.isEmpty_iff, setSubtract, List.filter_eq_nil_iff]
    intro hemp
    have hmemnames : item.devicePath ∈ setDedup []
        ((config.filter (fun item => item.targetModeBuffer.isSome)).map
          (fun item => item.devicePath)) :=
      (mem_setDedup _ [] _).mpr (Or.inr (List.mem_map.mpr
        ⟨item, List.mem_filter.mpr ⟨hitem, hsome⟩, rfl⟩))
    have hx := hemp _ hmemnames
    apply habs
    have hcont : (setDedup [] (currentConfig.map (fun e => e.devicePath))).contains
        item.devicePath = true := by
      revert hx
      cases (setDedup [] (currentConfig.map (fun e => e.devicePath))).contains
        item.devicePath <;> simp
    exact ((mem_setDedup _ [] _).mp ((contains_iff _ _).mp hcont)).resolve_left
      (List.not_mem_nil _)
  simp only [restoreDisplayConfig]
  rw [if_neg hnottrue]
  refine ⟨_, _, rfl, ?_, ?_, ?_, ?_⟩
  · intro p hp
    have := (togglePass_out_mem _ _ _ _ hp).1
    exact ((mem_setDedup _ [] _).mp ((contains_iff _ _).mp this)).resolve_left
      (List.not_mem_nil _)
  · intro p hp
    have := (togglePass_out_mem _ _ _ _ hp).1
    exact ((mem_setDedup _ [] _).mp ((contains_iff _ _).mp this)).resolve_left
      (List.not_mem_nil _)
  · intro p hpe hpd
    have hseen := (togglePass_out_mem _ _ _ _ hpd).2
    rw [togglePass_seen, List.nil_append, contains_eq_false_iff] at hseen
    exact hseen hpe
  · intro p hpe hpd hlive
    have hpnames : p ∈ (config.filter (fun item => item.targetModeBuffer.isSome)).map
        (fun item => item.devicePath) := by
      obtain ⟨i, hi, hisome, rfl⟩ := hpe
      exact List.mem_map.mpr ⟨i, List.mem_filter.mpr ⟨hi, hisome⟩, rfl⟩
    have hgiven : (setDedup [] (currentConfig.map (fun e => e.devicePath))).contains p
        = true := by
      rw [contains_iff]
      exact (mem_setDedup _ [] _).mpr (Or.inr hlive)
    have henable : p ∈ (togglePass
        (setDedup [] (currentConfig.map (fun e => e.devicePath))) []
        ((config.filter (fun item => item.targetModeBuffer.isSome)).map
          (fun item => item.devicePath))).2 :=
      togglePass_out_complete _ _ _ _ hpnames rfl hgiven
    refine ⟨henable, ?_⟩
    intro hpd2
    have hseen := (togglePass_out_mem _ _ _ _ hpd2).2
    rw [togglePass_seen, List.nil_append, contains_eq_false_iff] at hseen
    exact hseen henable

/-! ## Closed instances -/

/-- Closed instance of C4 at a name record differing only in `id`. -/
theorem extract_drops_unmatched_path_witness :
    extractEntry ⟨[], [sourceModeRecordSample], [{ nameRecordSample with id := 8 }]⟩
        pathRecordSample = none ∧
    extractDisplayConfig ⟨[pathRecordSample], [sourceModeRecordSample],
        [{ nameRecordSample with id := 8 }]⟩ =
      extractDisplayConfig ⟨[], [sourceModeRecordSample],
        [{ nameRecordSample with id := 8 }]⟩ :=
  extract_drops_unmatched_path pathRecordSample [] [sourceModeRecordSample]
    [{ nameRecordSample with id := 8 }] (by decide)

/-- Closed instance of C5 at an empty mode array (index 0 out of range). -/
theorem extract_drops_bad_source_mode_witness :
    extractEntry ⟨[], [], [nameRecordSample]⟩ pathRecordSample = none ∧
    extractDisplayConfig ⟨[pathRecordSample], [], [nameRecordSample]⟩ =
      extractDisplayConfig ⟨[], [], [nameRecordSample]⟩ :=
  extract_drops_bad_source_mode pathRecordSample [] [] [nameRecordSample]
    (Or.inl (by decide))

/-- Closed instance of C6: target `modeInfoIdx` 1 is out of range for a
one-element mode array, yet an entry is produced, off and bufferless. -/
theorem extract_keeps_powered_off_path_witness :
    (extractEntry ⟨[], [sourceModeRecordSample], [nameRecordSample]⟩ pathRecordSample).map
        (fun e => (e.inUse, e.targetModeBuffer, e.targetVideoSignalInfo)) =
      some (false, none, none) := by
  obtain ⟨e, he, h1, h2, h3⟩ := extract_keeps_powered_off_path pathRecordSample []
    [sourceModeRecordSample] [nameRecordSample] (by decide) ⟨42, [4, 5], rfl⟩ (by decide)
  rw [he]
  simp [h1, h2, h3]

/-- Closed instance of C9: `outputTechnology` 9 on the name record and 5 on
the path target still match; zeroing the target's value kills the match. -/
theorem name_match_ignores_tech_value_witness :
    nameMatches targetInfoSample nameRecordSample = true ∧
    nameMatches { targetInfoSample with outputTechnology := 0 } nameRecordSample = false := by
  have h := name_match_ignores_tech_value targetInfoSample nameRecordSample []
    [sourceModeRecordSample] pathRecordSample 42 [4, 5] rfl rfl rfl (by decide)
    (by decide) (by decide) (by decide) rfl rfl
  exact ⟨h.1, h.2.2.1 _ nameRecordSample rfl⟩

/-- Closed instance of C2: one live, enabled entry and one matching request
item produce a single apply record with the live ids and decoded buffers. -/
theorem restore_applies_when_all_enabled_present_witness :
    restoreDisplayConfig [requestItemEnabledSample] true [onEntrySample] =
      RestoreAction.apply
        [{ sourceConfigId := ⟨⟨1, 2⟩, 3⟩
           targetConfigId := ⟨⟨1, 2⟩, 7⟩
           pathBuffer := [1]
           sourceModeBuffer := [2]
           targetModeBuffer := [9] }] true := by
  have hap := restore_applies_when_all_enabled_present [requestItemEnabledSample] true
    [onEntrySample] (by decide)
  rw [hap]
  decide

/-- Closed instance of C3: a request over a missing path plus `pathA`
requested both on and off, against one live `pathA` entry, toggles with
`pathA` enabled only. -/
theorem restore_falls_back_when_enabled_missing_witness :
    restoreDisplayConfig [requestItemMissingSample, requestItemEnabledSample,
        requestItemDisabledSample] true [onEntrySample] =
      RestoreAction.toggle ["pathA"] [] true := by
  have hfb := restore_falls_back_when_enabled_missing
    [requestItemMissingSample, requestItemEnabledSample, requestItemDisabledSample]
    true [onEntrySample] (by decide)
  decide

/-- Closed instance of C10: `pathA` in both request lists puts the live
entry's target id on both id lists. -/
theorem toggle_direct_call_no_exclusivity_witness :
    toggleEnabledDisplays (some ["pathA"]) (some ["pathA", "pathB"]) [onEntrySample] =
      ([⟨⟨1, 2⟩, 7⟩], [⟨⟨1, 2⟩, 7⟩]) := by
  have h := toggle_direct_call_no_exclusivity ["pathA"] ["pathA", "pathB"] [onEntrySample]
    "pathA" onEntrySample (by decide) (by decide) (by decide) rfl
  rw [h.1]
  decide
